import Mathlib

/-!
Shallow embedding of the MLB player-stats lookup application
(`Working Code as of 11-4-25/app.py`) and verification of its
specification claims.

The application resolves a player name to an id, fetches hitting
statistics through a primary structured client with a dict-based
fallback client, looks up a display name, and orchestrates the three
through a web form handler.  Upstream library calls are modelled as
environment fields of type `Except String α`: an `Except.error` models
the Python call raising an exception whose rendered message is the
string.  Python dictionaries are modelled as insertion-ordered
association lists with unique keys; Python scalar values as `Val`.
-/

set_option autoImplicit false

namespace MLB

/-- A Python scalar value as it appears in the stat dictionaries:
a string, an integer, or `None`. -/
inductive Val where
  | vStr (s : String)
  | vInt (n : Int)
  | vNone
  deriving DecidableEq, Repr

/-- Python truthiness of a `Val`: `""`, `0` and `None` are falsy. -/
def Val.truthy : Val → Bool
  | .vStr s => !(s == "")
  | .vInt n => !(n == 0)
  | .vNone => false

/-- Python `str(v)` rendering of a `Val`. -/
def pyStr : Val → String
  | .vStr s => s
  | .vInt n => toString n
  | .vNone => "None"

/-- ASCII model of `str.lower()` on one character. -/
def lowerChar (c : Char) : Char :=
  if 65 ≤ c.toNat ∧ c.toNat ≤ 90 then Char.ofNat (c.toNat + 32) else c

/-- Python `s.lower()` (ASCII model). -/
def pyLower (s : String) : String :=
  ⟨s.data.map lowerChar⟩

/-- Accumulating decimal value of a digit list. -/
def digitsToNat : List Char → Nat → Nat
  | [], acc => acc
  | c :: cs, acc => digitsToNat cs (acc * 10 + (c.toNat - 48))

/-- Parse a canonical decimal numeral (optional leading minus),
modelling the strings Python `int()` accepts. -/
def intParse (s : String) : Option Int :=
  match s.data with
  | [] => none
  | c :: cs =>
      if c = '-' then
        if !cs.isEmpty && cs.all Char.isDigit then
          some (-(Int.ofNat (digitsToNat cs 0)))
        else none
      else
        if (c :: cs).all Char.isDigit then
          some (Int.ofNat (digitsToNat (c :: cs) 0))
        else none

/-- Python `int(v)` coercion, which raises on `None` and on strings
that are not integer numerals. -/
def Val.toIntExc : Val → Except String Int
  | .vInt n => .ok n
  | .vStr s =>
      match intParse s with
      | some n => .ok n
      | none => .error ("invalid literal for int() with base 10: " ++ s)
  | .vNone => .error ("int() argument must be a string or a number, not NoneType")

/-- A Python dict, insertion-ordered with unique keys. -/
abbrev Row := List (String × Val)

/-- Python `d.get(k)`: value of the first entry with key `k`, if any. -/
def dictGet : Row → String → Option Val
  | [], _ => none
  | (k', v) :: rest, k => if k' = k then some v else dictGet rest k

/-- Python `d[k] = v`: overwrite in place if the key is present,
otherwise append at the end. -/
def dictSet : Row → String → Val → Row
  | [], k, v => [(k, v)]
  | (k', v') :: rest, k, v =>
      if k' = k then (k, v) :: rest else (k', v') :: dictSet rest k v

/-- Python substring membership `needle in hay` on strings. -/
def strContains (hay needle : String) : Bool :=
  (List.range (hay.data.length + 1)).any (fun i => needle.data.isPrefixOf (hay.data.drop i))

/-- Python `x or ""` applied to an optional dict value: keep a truthy
value, otherwise the empty string (`None`/absent/falsy collapse). -/
def orEmptyStr : Option Val → Val
  | some v => if v.truthy then v else .vStr ""
  | none => .vStr ""

/-- Collapse `d.get(k)` results so that a stored `None` and a missing
key both become `none`, matching Python `x is not None` tests on the
result of `.get`. -/
def getNotNone : Option Val → Option Val
  | some .vNone => none
  | some v => some v
  | none => none

/-- Python `a or b` on two optional dict values (missing keys read as
`None`): the first truthy value, else the second value (or `None`). -/
def pyOr (a b : Option Val) : Val :=
  let av := a.getD .vNone
  if av.truthy then av else b.getD .vNone

/-! ### Name resolution (`resolve_player_id`) -/

/-- A record returned by `statsapi.lookup_player`: only the fields the
application reads are modelled; `none` means the key is absent. -/
structure Candidate where
  id : Option Val
  player_id : Option Val
  fullName : Option Val
  name_display_first_last : Option Val
  deriving DecidableEq, Repr

/-- Upstream environment for `resolve_player_id`.  The module-level
`mlbstatsapi`/`mlb` pair is either both set or both `None`, so a single
availability flag models `if mlbstatsapi and mlb`. -/
structure ResolveEnv where
  mlbAvailable : Bool
  statsapiAvailable : Bool
  /-- Outcome of `mlb.get_people_id(name)`; the library annotates the
  result as `list[int]`. -/
  getPeopleId : Except String (List Int)
  /-- Outcome of `statsapi.lookup_player(name)`. -/
  lookupPlayer : Except String (List Candidate)

/-- `resolve_player_id(name)`: first primary match, else first fallback
record's `id`-or-`player_id` field coerced to int, else `None`; every
upstream exception is swallowed by the surrounding `try`/`except`. -/
def resolve_player_id (env : ResolveEnv) : Except String (Option Int) :=
  let primary : Option Int :=
    if env.mlbAvailable then
      match env.getPeopleId with
      | .ok (i :: _) => some i
      | _ => none
    else none
  match primary with
  | some i => .ok (some i)
  | none =>
      if env.statsapiAvailable then
        match env.lookupPlayer with
        | .ok (c :: _) =>
            match Val.toIntExc (pyOr c.id c.player_id) with
            | .ok n => .ok (some n)
            | .error _ => .ok none
        | _ => .ok none
      else .ok none

/-! ### Display name (`get_display_name`) -/

/-- A person record from `mlb.get_people`; `fullName = none` models the
attribute being absent (`hasattr` false), `some v` models it present
with value `v` (possibly `None`). -/
structure Person where
  fullName : Option Val
  deriving DecidableEq, Repr

/-- Upstream environment for `get_display_name`. -/
structure DisplayEnv where
  mlbAvailable : Bool
  statsapiAvailable : Bool
  /-- Outcome of `mlb.get_people(personIds=[player_id])`. -/
  getPeople : Except String (List Person)
  /-- Outcome of `statsapi.lookup_player(player_id)`. -/
  lookupPlayer : Except String (List Candidate)

/-- `get_display_name(player_id)`: primary full name, else fallback
`fullName` / `name_display_first_last` / `str(player_id)` chain, else
`str(player_id)`; upstream exceptions are swallowed. -/
def get_display_name (env : DisplayEnv) (player_id : Int) : Except String Val :=
  let primary : Option Val :=
    if env.mlbAvailable then
      match env.getPeople with
      | .ok (p :: _) =>
          match p.fullName with
          | some v => some v
          | none => none
      | _ => none
    else none
  match primary with
  | some v => .ok v
  | none =>
      if env.statsapiAvailable then
        match env.lookupPlayer with
        | .ok (c :: _) =>
            let a := c.fullName.getD .vNone
            if a.truthy then .ok a
            else
              let b := c.name_display_first_last.getD .vNone
              if b.truthy then .ok b else .ok (.vStr (toString player_id))
        | _ => .ok (.vStr (toString player_id))
      else .ok (.vStr (toString player_id))

/-! ### Primary stats path (`_get_hitting_stats_mlbstatsapi`) -/

/-- One split of the primary response.  `stat` holds the public and
private entries of `split.stat.__dict__`; `team = some nameAttr` models
a (truthy) team object whose `name` attribute is `nameAttr` (absent →
`getattr` default `None`); `season` is `getattr(split, "season", None)`. -/
structure PrimarySplit where
  stat : Row
  team : Option (Option Val)
  season : Option Val
  deriving DecidableEq, Repr

/-- The object stored under a scope key of the primary response's
`hitting` group: it carries a `splits` sequence. -/
structure PrimaryBlock where
  splits : List PrimarySplit
  deriving DecidableEq, Repr

/-- The nested mapping returned by `mlb.get_player_stats`: group name →
scope name → block, where a stored value may itself be `None`
(`some none` in the inner map). -/
structure PrimaryResp where
  groups : List (String × List (String × Option PrimaryBlock))
  deriving DecidableEq, Repr

/-- Association-list lookup used for the two nested `.get` calls on the
primary response. -/
def alistGet {α : Type} : List (String × α) → String → Option α
  | [], _ => none
  | (k', v) :: rest, k => if k' = k then some v else alistGet rest k

/-- `stat_dict.get("hitting", {}).get(scope)`: `none` when either key is
missing, `some none` when the scope key holds `None`. -/
def primaryGroupBlock (resp : PrimaryResp) (scope : String) : Option (Option PrimaryBlock) :=
  match alistGet resp.groups ("hitting") with
  | none => none
  | some scopes => alistGet scopes scope

/-- `scope = "career" if season is None else "season"`. -/
def scopeOf (season : Option Int) : String :=
  match season with
  | none => "career"
  | some _ => "season"

/-- Row built from one primary split: the non-underscore entries of
`split.stat.__dict__`, then `team_name` when a team object is present,
then `season` when the season attribute is truthy. -/
def splitRow (sp : PrimarySplit) : Row :=
  let row := sp.stat.filter (fun p => !(p.1.startsWith ("_")))
  let row :=
    match sp.team with
    | some nameAttr => dictSet row ("team_name") (nameAttr.getD .vNone)
    | none => row
  match sp.season with
  | some v => if v.truthy then dictSet row ("season") v else row
  | none => row

/-! ### Fallback stats path (`_get_hitting_stats_statsapi`) -/

/-- One split of the dict-shaped fallback response.  `stat` collapses
`s.get("stat", {}) or {}`; `team = some t` models the `team` value being
a dict `t`; `season = some v` models the key `"season"` being present
with value `v` (possibly `None`). -/
structure DictSplit where
  stat : Row
  team : Option Row
  season : Option Val
  deriving DecidableEq, Repr

/-- The dict-shaped `stats` block: the `splits` lists found under the
`career` and `season` keys (`.get(key, {}).get("splits", [])`). -/
structure DictShapeData where
  career : List DictSplit
  season : List DictSplit
  deriving DecidableEq, Repr

/-- One entry of the list-shaped `stats` block.  `stats = some d`
models the `stats` value being a dict `d` (absent/`None`/falsy →
`none`); `currentTeam`/`team` are `some d` exactly when the value is a
dict (the `isinstance(..., dict)` checks). -/
structure ListEntry where
  group : Option Val
  type : Option Val
  season : Option Val
  stats : Option Row
  currentTeam : Option Row
  team : Option Row
  deriving DecidableEq, Repr

/-- The `stats` field of the fallback response: dict shape, list shape,
or anything else (including the key being absent). -/
inductive StatsBlock where
  | dictShape (d : DictShapeData)
  | listShape (l : List ListEntry)
  | otherShape
  deriving Repr

/-- Row built from one dict-shaped split: copy of `stat`, then
`team_name` when `team` is a dict, then `season` when the key exists. -/
def dictSplitRow (s : DictSplit) : Row :=
  let row := s.stat
  let row :=
    match s.team with
    | some t => dictSet row ("team_name") ((dictGet t ("name")).getD .vNone)
    | none => row
  match s.season with
  | some v => dictSet row ("season") v
  | none => row

/-- Row built from one matching list-shaped entry: copy of its `stats`
dict, then `season` when non-`None`, then `team_name` from
`currentTeam.name` or `team.name` when one of them is truthy. -/
def buildListRow (sg : ListEntry) : Row :=
  let row := sg.stats.getD []
  let row :=
    match getNotNone sg.season with
    | some v => dictSet row ("season") v
    | none => row
  let tn1 :=
    match sg.currentTeam with
    | some d => (dictGet d ("name")).getD .vNone
    | none => .vNone
  let tn :=
    if !tn1.truthy then
      match sg.team with
      | some d => (dictGet d ("name")).getD .vNone
      | none => tn1
    else tn1
  if tn.truthy then dictSet row ("team_name") tn else row

/-- Filter for one list-shaped entry: `.ok none` when the entry is
skipped, `.ok (some row)` when it contributes, `.error` when the
`int()` coercion of its season raises. -/
def listEntryRow (season : Option Int) (sg : ListEntry) : Except String (Option Row) :=
  let grp := pyLower (pyStr (orEmptyStr sg.group))
  let typ := pyLower (pyStr (orEmptyStr sg.type))
  if !strContains grp ("hitting") then .ok none
  else
    match season with
    | none =>
        if !strContains typ ("career") then .ok none
        else .ok (some (buildListRow sg))
    | some y =>
        if !strContains typ ("season") then .ok none
        else
          match getNotNone sg.season with
          | none => .ok (some (buildListRow sg))
          | some v =>
              match Val.toIntExc v with
              | .error e => .error e
              | .ok n => if n = y then .ok (some (buildListRow sg)) else .ok none

/-- The list-shape loop: rows of the contributing entries in order; the
first `int()` failure aborts the whole call. -/
def listShapeRows (season : Option Int) : List ListEntry → Except String (List Row)
  | [] => .ok []
  | sg :: rest =>
      match listEntryRow season sg with
      | .error e => .error e
      | .ok none => listShapeRows season rest
      | .ok (some r) =>
          match listShapeRows season rest with
          | .error e => .error e
          | .ok rs => .ok (r :: rs)

/-- Upstream environment for the two stats fetchers. -/
structure StatsEnv where
  mlbAvailable : Bool
  statsapiAvailable : Bool
  /-- Outcome of `mlb.get_player_stats(player_id, ...)`. -/
  primaryResp : Except String PrimaryResp
  /-- Outcome of `statsapi.player_stat_data(personId=player_id, ...)`,
  collapsed to the shape of its `stats` field. -/
  fallbackResp : Except String StatsBlock

/-- `_get_hitting_stats_mlbstatsapi(player_id, season)`. -/
def get_hitting_stats_mlbstatsapi (env : StatsEnv) (player_id : Int) (season : Option Int) :
    Except String (List Row) :=
  if !env.mlbAvailable then .error ("mlbstatsapi not available")
  else
    match env.primaryResp with
    | .error e => .error e
    | .ok resp =>
        match primaryGroupBlock resp (scopeOf season) with
        | some (some b) => .ok (b.splits.map splitRow)
        | _ => .ok []

/-- `_get_hitting_stats_statsapi(player_id, season)`. -/
def get_hitting_stats_statsapi (env : StatsEnv) (player_id : Int) (season : Option Int) :
    Except String (List Row) :=
  if !env.statsapiAvailable then .error ("statsapi not available")
  else
    match env.fallbackResp with
    | .error e => .error e
    | .ok (.dictShape d) =>
        match season with
        | none => .ok (d.career.map dictSplitRow)
        | some _ => .ok (d.season.map dictSplitRow)
    | .ok (.listShape l) => listShapeRows season l
    | .ok .otherShape => .ok []

/-- `get_hitting_stats(player_id, season)`: primary path, fallback on
any primary exception, combined `RuntimeError` when both raise. -/
def get_hitting_stats (env : StatsEnv) (player_id : Int) (season : Option Int) :
    Except String (List Row) :=
  match get_hitting_stats_mlbstatsapi env player_id season with
  | .ok rows => .ok rows
  | .error e1 =>
      match get_hitting_stats_statsapi env player_id season with
      | .ok rows => .ok rows
      | .error e2 =>
          .error ("Primary failed: " ++ e1 ++ "; Fallback failed: " ++ e2)

/-! ### Request handler (`player_lookup`) -/

/-- Python `str.strip()` whitespace set. -/
def isPySpace (c : Char) : Bool :=
  c == ' ' || c == '\t' || c == '\n' || c == '\r' || c == '\x0b' || c == '\x0c'

/-- Python `s.strip()`. -/
def pyStrip (s : String) : String :=
  ⟨((s.data.dropWhile isPySpace).reverse.dropWhile isPySpace).reverse⟩

/-- Python `s.isdigit()` (ASCII digits): non-empty and all digits. -/
def pyIsDigit (s : String) : Bool :=
  !(s == "") && s.data.all Char.isDigit

/-- `int(year_raw)` for a digits-only string; the handler only calls
this after `isdigit` has succeeded, so the default is unreachable. -/
def intOfDigits (s : String) : Int :=
  (s.toNat?).getD 0

/-- The three upstream-touching helpers the handler can invoke. -/
inductive SourceCall where
  | resolveCall
  | statsCall
  | displayCall
  deriving DecidableEq, Repr

/-- Outcome of the handler: a flash message plus redirect, or the
rendered results page. -/
inductive HandlerResult where
  | flashRedirect (msg : String)
  | page (player_name : Val) (player_id : Int) (mode : String)
      (season : Option Int) (rows : List Row)

/-- Environments of the three helpers the handler orchestrates. -/
structure HandlerEnv where
  resolveEnv : ResolveEnv
  statsEnv : StatsEnv
  displayEnv : DisplayEnv

/-- The form fields of a `POST /player` submission, after
`request.form.get(key, "")` defaulting. -/
structure Form where
  name : String
  mode : String
  year : String
  deriving DecidableEq, Repr

/-- `player_lookup()`: validation, resolution, stats fetch, display
name, render.  The second component records which helpers were invoked,
in order.  An uncaught exception from a helper (never raised by
`resolve_player_id`/`get_display_name`) propagates as `.error`. -/
def player_lookup (env : HandlerEnv) (form : Form) :
    Except String (HandlerResult × List SourceCall) :=
  let name := pyStrip form.name
  let mode := form.mode
  let year_raw := pyStrip form.year
  if name = "" then .ok (.flashRedirect ("Please enter a player name."), [])
  else if mode = "season" && !pyIsDigit year_raw then
    .ok (.flashRedirect ("Please enter a valid season year (e.g., 2022) or choose Career."), [])
  else
    let season : Option Int := if mode = "season" then some (intOfDigits year_raw) else none
    match resolve_player_id env.resolveEnv with
    | .error e => .error e
    | .ok pid =>
        if pid = none || pid = some 0 then
          .ok (.flashRedirect ("No player found for '" ++ name ++ "'. Try a more specific name."),
            [.resolveCall])
        else
          match pid with
          | none =>
              .ok (.flashRedirect ("No player found for '" ++ name ++ "'. Try a more specific name."),
                [.resolveCall])
          | some p =>
              match get_hitting_stats env.statsEnv p season with
              | .error e =>
                  .ok (.flashRedirect ("Could not fetch stats: " ++ e),
                    [.resolveCall, .statsCall])
              | .ok rows =>
                  if rows = [] then
                    .ok (.flashRedirect ("No stats found for that selection."),
                      [.resolveCall, .statsCall])
                  else
                    match get_display_name env.displayEnv p with
                    | .error e => .error e
                    | .ok display_name =>
                        .ok (.page display_name p mode season rows,
                          [.resolveCall, .statsCall, .displayCall])

/-! ### Module state for the idempotence claim

The module-level globals (`mlb`, `mlbstatsapi`, `statsapi`) are set at module
load time and never assigned afterwards; the state-passing versions
below make that explicit so that repeated calls can be compared. -/

/-- The module-level mutable state: the availability of the two client
handles (each handle is either a live client or `None`). -/
structure ProgState where
  mlbAvailable : Bool
  statsapiAvailable : Bool
  deriving DecidableEq, Repr

/-- State-passing `resolve_player_id`: the body reads the globals and
never assigns them, so the state is returned unchanged. -/
def resolve_player_id_st (st : ProgState) (up : ResolveEnv) :
    Except String (Option Int) × ProgState :=
  (resolve_player_id { up with mlbAvailable := st.mlbAvailable, statsapiAvailable := st.statsapiAvailable }, st)

/-- State-passing `get_hitting_stats`; no global is assigned. -/
def get_hitting_stats_st (st : ProgState) (up : StatsEnv) (player_id : Int)
    (season : Option Int) : Except String (List Row) × ProgState :=
  (get_hitting_stats { up with mlbAvailable := st.mlbAvailable, statsapiAvailable := st.statsapiAvailable } player_id season, st)

/-- State-passing `get_display_name`; no global is assigned. -/
def get_display_name_st (st : ProgState) (up : DisplayEnv) (player_id : Int) :
    Except String Val × ProgState :=
  (get_display_name { up with mlbAvailable := st.mlbAvailable, statsapiAvailable := st.statsapiAvailable } player_id, st)

/-! ## Helper lemmas -/

lemma str_append_assoc (a b c : String) : (a ++ b) ++ c = a ++ (b ++ c) := by
  apply String.ext
  simp

lemma str_append_empty (a : String) : a ++ "" = a := by
  apply String.ext
  simp

lemma dictGet_dictSet_same (d : Row) (k : String) (v : Val) :
    dictGet (dictSet d k v) k = some v := by
  induction d with
  | nil => simp [dictSet, dictGet]
  | cons p rest ih =>
      obtain ⟨k', v'⟩ := p
      by_cases h : k' = k
      · simp [dictSet, dictGet, h]
      · simp [dictSet, dictGet, h, ih]

lemma dictGet_dictSet_ne (d : Row) (k k' : String) (v : Val) (h : k' ≠ k) :
    dictGet (dictSet d k' v) k = dictGet d k := by
  induction d with
  | nil => simp [dictSet, dictGet, h]
  | cons p rest ih =>
      obtain ⟨k'', v''⟩ := p
      by_cases h2 : k'' = k'
      · simp [dictSet, dictGet, h2, h]
      · by_cases h3 : k'' = k
        · simp [dictSet, dictGet, h2, h3, Ne.symm h]
        · simp [dictSet, dictGet, h2, h3, ih]

/-- The primary fetcher reads only the availability flag and the
primary response from its environment. -/
lemma mlbstatsapi_ext (env env' : StatsEnv) (pid : Int) (season : Option Int)
    (h1 : env'.mlbAvailable = env.mlbAvailable) (h2 : env'.primaryResp = env.primaryResp) :
    get_hitting_stats_mlbstatsapi env' pid season = get_hitting_stats_mlbstatsapi env pid season := by
  unfold get_hitting_stats_mlbstatsapi
  rw [h1, h2]

/-! ## Claim theorems -/

/-- C1: `get_hitting_stats` raises iff both the primary path and the
fallback path raise on that input; the single raised error's message
contains both failure descriptions; and when the primary path succeeds
its result is returned without the fallback being consulted (the result
is fixed by the primary-path components of the environment alone). -/
theorem c1_unified_failure (env : StatsEnv) (pid : Int) (season : Option Int) :
    (∀ rows env', get_hitting_stats_mlbstatsapi env pid season = .ok rows →
        env'.mlbAvailable = env.mlbAvailable → env'.primaryResp = env.primaryResp →
        get_hitting_stats env' pid season = .ok rows) ∧
    ((∃ e, get_hitting_stats env pid season = .error e) ↔
      ((∃ e1, get_hitting_stats_mlbstatsapi env pid season = .error e1) ∧
       (∃ e2, get_hitting_stats_statsapi env pid season = .error e2))) ∧
    (∀ e1 e2, get_hitting_stats_mlbstatsapi env pid season = .error e1 →
        get_hitting_stats_statsapi env pid season = .error e2 →
        (∃ a b, get_hitting_stats env pid season = .error (a ++ (e1 ++ b))) ∧
        (∃ c d, get_hitting_stats env pid season = .error (c ++ (e2 ++ d)))) := by
  refine ⟨?_, ⟨?_, ?_⟩, ?_⟩
  · intro rows env' hok h1 h2
    have hp := mlbstatsapi_ext env env' pid season h1 h2
    unfold get_hitting_stats
    rw [hp, hok]
  · rintro ⟨e, he⟩
    unfold get_hitting_stats at he
    cases hp : get_hitting_stats_mlbstatsapi env pid season with
    | ok rows => rw [hp] at he; simp at he
    | error e1 =>
        rw [hp] at he
        cases hf : get_hitting_stats_statsapi env pid season with
        | ok rows => rw [hf] at he; simp at he
        | error e2 => exact ⟨⟨e1, rfl⟩, ⟨e2, rfl⟩⟩
  · rintro ⟨⟨e1, h1⟩, ⟨e2, h2⟩⟩
    unfold get_hitting_stats
    rw [h1, h2]
    exact ⟨_, rfl⟩
  · intro e1 e2 h1 h2
    unfold get_hitting_stats
    rw [h1, h2]
    constructor
    · refine ⟨"Primary failed: ", "; Fallback failed: " ++ e2, ?_⟩
      show Except.error ("Primary failed: " ++ e1 ++ "; Fallback failed: " ++ e2) = _
      rw [str_append_assoc, str_append_assoc]
    · refine ⟨"Primary failed: " ++ e1 ++ "; Fallback failed: ", "", ?_⟩
      show Except.error ("Primary failed: " ++ e1 ++ "; Fallback failed: " ++ e2) = _
      rw [str_append_empty]

/-- Witness for C1 at a concrete environment where both paths fail. -/
theorem c1_unified_failure_witness :
    (get_hitting_stats_mlbstatsapi
        ⟨false, false, .error ("x"), .error ("y")⟩ 1 none = .error ("mlbstatsapi not available")) ∧
    (∃ a b, get_hitting_stats ⟨false, false, .error ("x"), .error ("y")⟩ 1 none =
        .error (a ++ ("mlbstatsapi not available" ++ b))) := by
  refine ⟨rfl, ?_⟩
  exact ((c1_unified_failure ⟨false, false, .error ("x"), .error ("y")⟩ 1 none).2.2
    ("mlbstatsapi not available") ("statsapi not available") rfl rfl).1

/-- Every row produced by the list-shape loop comes from some entry of
the list that the filter accepted. -/
lemma mem_listShapeRows (season : Option Int) (l : List ListEntry) (rows : List Row) (r : Row)
    (h : listShapeRows season l = .ok rows) (hr : r ∈ rows) :
    ∃ sg ∈ l, listEntryRow season sg = .ok (some r) := by
  induction l generalizing rows with
  | nil =>
      unfold listShapeRows at h
      cases h
      simp at hr
  | cons sg rest ih =>
      unfold listShapeRows at h
      cases he : listEntryRow season sg with
      | error e => rw [he] at h; cases h
      | ok o =>
          rw [he] at h
          cases o with
          | none =>
              obtain ⟨sg', hmem, hrow⟩ := ih rows h hr
              exact ⟨sg', List.mem_cons_of_mem _ hmem, hrow⟩
          | some r0 =>
              cases hrest : listShapeRows season rest with
              | error e => rw [hrest] at h; cases h
              | ok rs =>
                  rw [hrest] at h
                  cases h
                  rcases List.mem_cons.mp hr with h0 | h0
                  · exact ⟨sg, List.mem_cons_self _ _, by rw [he, h0]⟩
                  · obtain ⟨sg', hmem, hrow⟩ := ih rs hrest h0
                    exact ⟨sg', List.mem_cons_of_mem _ hmem, hrow⟩

/-- When an entry carries a non-`None` season, the built row's `season`
field is exactly that value. -/
lemma buildListRow_season (sg : ListEntry) (v : Val)
    (hv : getNotNone sg.season = some v) :
    dictGet (buildListRow sg) ("season") = some v := by
  have hne : ("team_name" : String) ≠ "season" := by decide
  obtain ⟨g, t, s, st, ct, tm⟩ := sg
  simp only [buildListRow, hv]
  split <;> split <;>
    first
      | (rw [dictGet_dictSet_ne _ _ _ _ hne]; exact dictGet_dictSet_same _ _ _)
      | exact dictGet_dictSet_same _ _ _

/-- A row contributed in season mode by an entry whose season is
non-`None` carries that season value, and the value coerces to the
requested year. -/
lemma listEntryRow_season_match (y : Int) (sg : ListEntry) (r : Row) (v : Val)
    (h : listEntryRow (some y) sg = .ok (some r)) (hv : getNotNone sg.season = some v) :
    dictGet r ("season") = some v ∧ Val.toIntExc v = .ok y := by
  have h' : (if !strContains (pyLower (pyStr (orEmptyStr sg.group))) ("hitting") then
        (Except.ok none : Except String (Option Row))
      else if !strContains (pyLower (pyStr (orEmptyStr sg.type))) ("season") then .ok none
      else
        match getNotNone sg.season with
        | none => .ok (some (buildListRow sg))
        | some w =>
            match Val.toIntExc w with
            | .error e => .error e
            | .ok n => if n = y then .ok (some (buildListRow sg)) else .ok none) =
      .ok (some r) := h
  rw [hv] at h'
  split at h'
  · simp at h'
  · split at h'
    · simp at h'
    · have h2 : (match Val.toIntExc v with
          | Except.error e => (Except.error e : Except String (Option Row))
          | Except.ok n =>
              if n = y then .ok (some (buildListRow sg)) else .ok none) =
          .ok (some r) := h'
      cases hi : Val.toIntExc v with
      | error e => rw [hi] at h2; simp at h2
      | ok n =>
          rw [hi] at h2
          have h3 : (if n = y then (Except.ok (some (buildListRow sg)) :
              Except String (Option Row)) else .ok none) = .ok (some r) := h2
          by_cases hn : n = y
          · rw [if_pos hn] at h3
            have hrr : buildListRow sg = r := by
              injection h3 with h4
              injection h4
            subst hn
            rw [← hrr]
            exact ⟨buildListRow_season sg v hv, rfl⟩
          · rw [if_neg hn] at h3
            simp at h3

/-- C2 (counterexample): with the primary path raising and a
dict-shaped fallback whose single season split carries season
`"2021"`, `get_hitting_stats(660271, 2022)` returns a row whose
`season` field is `"2021"`, not the requested year 2022. -/
theorem c2_counterexample :
    get_hitting_stats
      ⟨true, true, .error ("boom"),
        .ok (.dictShape ⟨[], [⟨[(("hits"), .vInt 150)], none, some (.vStr "2021")⟩]⟩)⟩
      660271 (some 2022)
      = .ok [[(("hits"), .vInt 150), (("season"), .vStr "2021")]] ∧
    dictGet [(("hits"), Val.vInt 150), (("season"), Val.vStr "2021")] ("season")
      = some (.vStr "2021") ∧
    Val.toIntExc (.vStr "2021") = .ok 2021 ∧ (2021 : Int) ≠ 2022 := by
  exact ⟨rfl, rfl, rfl, by decide⟩

/-- C2 (amended): in season mode the list-shaped fallback guarantees
the `season` field: when the primary path raises and the fallback
response is list-shaped with every entry carrying a non-`None` season,
every returned row has a `season` field whose value integer-coerces to
the requested year.  (The primary and dict-shaped paths copy the
upstream season unchecked, and entries without a season value yield
rows without one.) -/
theorem c2_amended_list_season (env : StatsEnv) (pid y : Int) (l : List ListEntry)
    (hsa : env.statsapiAvailable = true)
    (hfb : env.fallbackResp = .ok (.listShape l))
    (hall : ∀ sg ∈ l, ∃ v, getNotNone sg.season = some v)
    (e1 : String) (hp : get_hitting_stats_mlbstatsapi env pid (some y) = .error e1)
    (rows : List Row) (hrows : get_hitting_stats env pid (some y) = .ok rows) :
    ∀ r ∈ rows, ∃ v, dictGet r ("season") = some v ∧ Val.toIntExc v = .ok y := by
  intro r hr
  have hfall : get_hitting_stats_statsapi env pid (some y) = listShapeRows (some y) l := by
    unfold get_hitting_stats_statsapi
    rw [hsa, hfb]
    rfl
  have hls : listShapeRows (some y) l = .ok rows := by
    unfold get_hitting_stats at hrows
    rw [hp, hfall] at hrows
    cases hls2 : listShapeRows (some y) l with
    | error e => rw [hls2] at hrows; simp at hrows
    | ok rs =>
        rw [hls2] at hrows
        simp at hrows
        rw [hrows]
  obtain ⟨sg, hmem, hrow⟩ := mem_listShapeRows (some y) l rows r hls hr
  obtain ⟨v, hv⟩ := hall sg hmem
  exact ⟨v, listEntryRow_season_match y sg r v hrow hv⟩

/-- Witness for the amended C2 at a concrete list-shaped fallback. -/
theorem c2_amended_list_season_witness :
    dictGet [(("hits"), Val.vInt 150), (("season"), Val.vStr "2022"),
      (("team_name"), Val.vStr "Seattle Mariners")] ("season") = some (Val.vStr "2022") ∧
    Val.toIntExc (Val.vStr "2022") = Except.ok 2022 := by
  have h := c2_amended_list_season
    ⟨true, true, Except.error ("boom"),
      Except.ok (.listShape [⟨some (.vStr "Hitting"), some (.vStr "Season"),
        some (.vStr "2022"), some [(("hits"), .vInt 150)],
        some [(("name"), .vStr "Seattle Mariners")], none⟩])⟩
    660271 2022
    [⟨some (.vStr "Hitting"), some (.vStr "Season"), some (.vStr "2022"),
      some [(("hits"), .vInt 150)], some [(("name"), .vStr "Seattle Mariners")], none⟩]
    rfl rfl
    (by
      intro sg hsg
      simp only [List.mem_singleton] at hsg
      subst hsg
      exact ⟨.vStr "2022", rfl⟩)
    ("boom") rfl
    [[(("hits"), Val.vInt 150), (("season"), Val.vStr "2022"),
      (("team_name"), Val.vStr "Seattle Mariners")]]
    (by rfl)
  have h2 := h [(("hits"), Val.vInt 150), (("season"), Val.vStr "2022"),
      (("team_name"), Val.vStr "Seattle Mariners")] (by simp)
  obtain ⟨v, hv1, hv2⟩ := h2
  have hveq : v = Val.vStr "2022" := by
    have h3 : some v = some (Val.vStr "2022") := by rw [← hv1]; rfl
    exact Option.some.inj h3
  subst hveq
  exact ⟨hv1, hv2⟩

/-- C3: primary raises for id 660271 / season 2022, fallback returns
the single list-shape entry of the scenario; `get_hitting_stats`
returns exactly the one expected row. -/
theorem c3_scenario :
    get_hitting_stats
      ⟨true, true, .error ("schema change"),
        .ok (.listShape [⟨some (.vStr "Hitting"), some (.vStr "Season"),
          some (.vStr "2022"), some [(("hits"), .vInt 150)],
          some [(("name"), .vStr "Seattle Mariners")], none⟩])⟩
      660271 (some 2022)
      = .ok [[(("hits"), .vInt 150), (("season"), .vStr "2022"),
          (("team_name"), .vStr "Seattle Mariners")]] := by
  rfl

/-- C4 (counterexample): an entry whose `season` field is absent
(`None`) — so no year match after integer coercion is possible — still
contributes a row in season mode, refuting the claimed "only if". -/
theorem c4_counterexample :
    get_hitting_stats
      ⟨true, true, .error ("schema drift"),
        .ok (.listShape [⟨some (.vStr "hitting"), some (.vStr "season"), none,
          some [(("hits"), .vInt 1)], none, none⟩])⟩
      660271 (some 2022)
      = .ok [[(("hits"), .vInt 1)]] ∧
    (⟨some (.vStr "hitting"), some (.vStr "season"), none,
      some [(("hits"), .vInt 1)], none, none⟩ : ListEntry).season = none := by
  exact ⟨rfl, rfl⟩

/-- C4 (amended): in the list-shaped fallback with a season-scoped
request, an entry contributes a row iff its group mentions "hitting",
its type mentions "season", and its `season` field is either
absent/`None` (no year check is performed then) or integer-coerces to
the requested year; the contributed row flattens the entry's `stats`
dict, attaches `season` when non-`None`, and takes `team_name` from
`currentTeam.name` when truthy, else from `team.name`. -/
theorem c4_amended_entry_filter (y : Int) (sg : ListEntry) (r : Row) :
    listEntryRow (some y) sg = .ok (some r) ↔
      (strContains (pyLower (pyStr (orEmptyStr sg.group))) ("hitting") = true ∧
       strContains (pyLower (pyStr (orEmptyStr sg.type))) ("season") = true ∧
       (getNotNone sg.season = none ∨
         ∃ v, getNotNone sg.season = some v ∧ Val.toIntExc v = .ok y) ∧
       r = buildListRow sg) := by
  constructor
  · intro h
    have h' : (if !strContains (pyLower (pyStr (orEmptyStr sg.group))) ("hitting") then
          (Except.ok none : Except String (Option Row))
        else if !strContains (pyLower (pyStr (orEmptyStr sg.type))) ("season") then .ok none
        else
          match getNotNone sg.season with
          | none => .ok (some (buildListRow sg))
          | some w =>
              match Val.toIntExc w with
              | .error e => .error e
              | .ok n => if n = y then .ok (some (buildListRow sg)) else .ok none) =
        .ok (some r) := h
    by_cases hg : strContains (pyLower (pyStr (orEmptyStr sg.group))) ("hitting") = true
    case neg =>
      rw [Bool.not_eq_true] at hg
      rw [hg] at h'
      simp at h'
    case pos =>
      rw [hg] at h'
      by_cases ht : strContains (pyLower (pyStr (orEmptyStr sg.type))) ("season") = true
      case neg =>
        rw [Bool.not_eq_true] at ht
        rw [ht] at h'
        simp at h'
      case pos =>
        rw [ht] at h'
        have h2 : (match getNotNone sg.season with
            | none => (Except.ok (some (buildListRow sg)) : Except String (Option Row))
            | some w =>
                match Val.toIntExc w with
                | .error e => .error e
                | .ok n => if n = y then .ok (some (buildListRow sg)) else .ok none) =
            .ok (some r) := h'
        cases hs : getNotNone sg.season with
        | none =>
            rw [hs] at h2
            have hr : r = buildListRow sg := by
              injection h2 with h3
              injection h3 with h4
              exact h4.symm
            exact ⟨hg, ht, Or.inl rfl, hr⟩
        | some v =>
            rw [hs] at h2
            have h3 : (match Val.toIntExc v with
                | Except.error e => (Except.error e : Except String (Option Row))
                | Except.ok n => if n = y then .ok (some (buildListRow sg)) else .ok none) =
                .ok (some r) := h2
            cases hi : Val.toIntExc v with
            | error e => rw [hi] at h3; simp at h3
            | ok n =>
                rw [hi] at h3
                have h4 : (if n = y then (Except.ok (some (buildListRow sg)) :
                    Except String (Option Row)) else .ok none) = .ok (some r) := h3
                by_cases hn : n = y
                · rw [if_pos hn] at h4
                  have hr : r = buildListRow sg := by
                    injection h4 with h5
                    injection h5 with h6
                    exact h6.symm
                  exact ⟨hg, ht, Or.inr ⟨v, rfl, by rw [hn] at hi; exact hi⟩, hr⟩
                · rw [if_neg hn] at h4
                  simp at h4
  · rintro ⟨hg, ht, hseason, hr⟩
    have hdef : listEntryRow (some y) sg = (if !strContains (pyLower (pyStr (orEmptyStr sg.group))) ("hitting") then
          (Except.ok none : Except String (Option Row))
        else if !strContains (pyLower (pyStr (orEmptyStr sg.type))) ("season") then .ok none
        else
          match getNotNone sg.season with
          | none => .ok (some (buildListRow sg))
          | some w =>
              match Val.toIntExc w with
              | .error e => .error e
              | .ok n => if n = y then .ok (some (buildListRow sg)) else .ok none) := rfl
    rw [hdef, hg, ht]
    show (match getNotNone sg.season with
        | none => (Except.ok (some (buildListRow sg)) : Except String (Option Row))
        | some w =>
            match Val.toIntExc w with
            | .error e => .error e
            | .ok n => if n = y then .ok (some (buildListRow sg)) else .ok none) =
      .ok (some r)
    rcases hseason with hs | ⟨v, hs, hi⟩
    · rw [hs, hr]
    · rw [hs]
      have hgoal : (match Val.toIntExc v with
          | Except.error e => (Except.error e : Except String (Option Row))
          | Except.ok n => if n = y then .ok (some (buildListRow sg)) else .ok none) =
          .ok (some r) := by
        rw [hi]
        show (if y = y then (Except.ok (some (buildListRow sg)) :
            Except String (Option Row)) else .ok none) = .ok (some r)
        rw [if_pos rfl, hr]
      exact hgoal

/-- Witness for the amended C4 at a concrete matching entry. -/
theorem c4_amended_entry_filter_witness :
    listEntryRow (some 2022)
      ⟨some (.vStr "Hitting"), some (.vStr "Season"), some (.vStr "2022"),
        some [(("hits"), .vInt 2)], none, none⟩
      = .ok (some [(("hits"), .vInt 2), (("season"), .vStr "2022")]) := by
  exact (c4_amended_entry_filter 2022
    ⟨some (.vStr "Hitting"), some (.vStr "Season"), some (.vStr "2022"),
      some [(("hits"), .vInt 2)], none, none⟩
    [(("hits"), .vInt 2), (("season"), .vStr "2022")]).mpr
    ⟨rfl, rfl, Or.inr ⟨.vStr "2022", rfl, rfl⟩, rfl⟩

/-- C5: when the primary call succeeds but the `hitting`/scope entry of
the nested response is missing, `None`, or holds no splits, the primary
path returns an empty sequence instead of raising. -/
theorem c5_missing_scope_empty (env : StatsEnv) (pid : Int) (season : Option Int)
    (resp : PrimaryResp)
    (hav : env.mlbAvailable = true)
    (hresp : env.primaryResp = .ok resp)
    (hblock : primaryGroupBlock resp (scopeOf season) = none ∨
      primaryGroupBlock resp (scopeOf season) = some none ∨
      ∃ b, primaryGroupBlock resp (scopeOf season) = some (some b) ∧ b.splits = []) :
    get_hitting_stats_mlbstatsapi env pid season = .ok [] := by
  unfold get_hitting_stats_mlbstatsapi
  rw [hav, hresp]
  show (match primaryGroupBlock resp (scopeOf season) with
      | some (some b) => (Except.ok (b.splits.map splitRow) : Except String (List Row))
      | _ => .ok []) = .ok []
  rcases hblock with h | h | ⟨b, h, hsp⟩
  · rw [h]
  · rw [h]
  · rw [h]
    show (Except.ok (b.splits.map splitRow) : Except String (List Row)) = .ok []
    rw [hsp]
    rfl

/-- Witness for C5: a response whose `hitting` group lacks the
requested scope key. -/
theorem c5_missing_scope_empty_witness :
    get_hitting_stats_mlbstatsapi
      ⟨true, true, .ok ⟨[(("hitting"), [])]⟩, .ok .otherShape⟩ 5 none = .ok [] :=
  c5_missing_scope_empty ⟨true, true, .ok ⟨[(("hitting"), [])]⟩, .ok .otherShape⟩
    5 none ⟨[(("hitting"), [])]⟩ rfl rfl (Or.inl rfl)

/-- C6: `resolve_player_id` never propagates an exception; when the
primary source answers with at least one match the first primary match
is returned; when both sources fail or find nothing the result is
`None`. -/
theorem c6_resolver_never_raises (env : ResolveEnv) :
    (∃ r, resolve_player_id env = .ok r) ∧
    (∀ i rest, env.mlbAvailable = true → env.getPeopleId = .ok (i :: rest) →
      resolve_player_id env = .ok (some i)) ∧
    ((env.mlbAvailable = false ∨ (∃ e, env.getPeopleId = .error e) ∨
        env.getPeopleId = .ok []) →
     (env.statsapiAvailable = false ∨ (∃ e, env.lookupPlayer = .error e) ∨
        env.lookupPlayer = .ok []) →
     resolve_player_id env = .ok none) := by
  refine ⟨?_, ?_, ?_⟩
  · unfold resolve_player_id
    repeat' split
    all_goals exact ⟨_, rfl⟩
  · intro i rest hA hG
    unfold resolve_player_id
    rw [hA, hG]
    rfl
  · intro h1 h2
    unfold resolve_player_id
    have hprimary : (if env.mlbAvailable then
        match env.getPeopleId with
        | .ok (i :: _) => some i
        | _ => none
      else none) = (none : Option Int) := by
      rcases h1 with h | ⟨e, h⟩ | h
      · rw [h]; rfl
      · rw [h]; cases env.mlbAvailable <;> rfl
      · rw [h]; cases env.mlbAvailable <;> rfl
    rw [hprimary]
    show (if env.statsapiAvailable then
        match env.lookupPlayer with
        | .ok (c :: _) =>
            match Val.toIntExc (pyOr c.id c.player_id) with
            | .ok n => Except.ok (some n)
            | .error _ => .ok none
        | _ => .ok none
      else .ok none) = .ok none
    rcases h2 with h | ⟨e, h⟩ | h
    · rw [h]; rfl
    · rw [h]; cases env.statsapiAvailable <;> rfl
    · rw [h]; cases env.statsapiAvailable <;> rfl

/-- Witness for C6: primary source answers with one match. -/
theorem c6_resolver_never_raises_witness :
    resolve_player_id ⟨true, false, .ok [660271], .error ("x")⟩ = .ok (some 660271) :=
  (c6_resolver_never_raises ⟨true, false, .ok [660271], .error ("x")⟩).2.1 660271 [] rfl rfl

/-- C7: `get_display_name` never raises, and when both lookups fail or
yield no usable name field it returns `str(player_id)`. -/
theorem c7_display_name_never_raises (env : DisplayEnv) (pid : Int) :
    (∃ v, get_display_name env pid = .ok v) ∧
    ((env.mlbAvailable = false ∨ (∃ e, env.getPeople = .error e) ∨ env.getPeople = .ok [] ∨
        ∃ p rest, env.getPeople = .ok (p :: rest) ∧ p.fullName = none) →
     (env.statsapiAvailable = false ∨ (∃ e, env.lookupPlayer = .error e) ∨
        env.lookupPlayer = .ok [] ∨
        ∃ c rest, env.lookupPlayer = .ok (c :: rest) ∧
          (c.fullName.getD .vNone).truthy = false ∧
          (c.name_display_first_last.getD .vNone).truthy = false) →
     get_display_name env pid = .ok (.vStr (toString pid))) := by
  constructor
  · simp only [get_display_name]
    repeat' split
    all_goals exact ⟨_, rfl⟩
  · intro h1 h2
    unfold get_display_name
    have hprimary : (if env.mlbAvailable then
        match env.getPeople with
        | .ok (p :: _) =>
            match p.fullName with
            | some v => some v
            | none => none
        | _ => none
      else none) = (none : Option Val) := by
      rcases h1 with h | ⟨e, h⟩ | h | ⟨p, rest, h, hfn⟩
      · rw [h]; rfl
      · rw [h]; cases env.mlbAvailable <;> rfl
      · rw [h]; cases env.mlbAvailable <;> rfl
      · cases env.mlbAvailable with
        | false => rfl
        | true =>
            rw [h]
            show (match p.fullName with
                | some v => (some v : Option Val)
                | none => none) = none
            rw [hfn]
    rw [hprimary]
    show (if env.statsapiAvailable then
        match env.lookupPlayer with
        | .ok (c :: _) =>
            if (c.fullName.getD .vNone).truthy then Except.ok (c.fullName.getD .vNone)
            else if (c.name_display_first_last.getD .vNone).truthy then
              .ok (c.name_display_first_last.getD .vNone)
            else .ok (.vStr (toString pid))
        | _ => .ok (.vStr (toString pid))
      else .ok (.vStr (toString pid))) = .ok (.vStr (toString pid))
    rcases h2 with h | ⟨e, h⟩ | h | ⟨c, rest, h, hfa, hfb⟩
    · rw [h]; rfl
    · rw [h]; cases env.statsapiAvailable <;> rfl
    · rw [h]; cases env.statsapiAvailable <;> rfl
    · cases env.statsapiAvailable with
      | false => rfl
      | true =>
          rw [h]
          show (if (c.fullName.getD Val.vNone).truthy then
              Except.ok (c.fullName.getD Val.vNone)
            else if (c.name_display_first_last.getD Val.vNone).truthy then
              Except.ok (c.name_display_first_last.getD Val.vNone)
            else Except.ok (Val.vStr (toString pid))) = Except.ok (.vStr (toString pid))
          rw [hfa, hfb]
          rfl

/-- Witness for C7: both sources unavailable. -/
theorem c7_display_name_never_raises_witness :
    get_display_name ⟨false, false, .error ("a"), .error ("b")⟩ 42 = .ok (.vStr "42") :=
  (c7_display_name_never_raises ⟨false, false, .error ("a"), .error ("b")⟩ 42).2
    (Or.inl rfl) (Or.inl rfl)

/-- C8: an empty (after trimming) name, or season mode with a
non-digits year, short-circuits the handler with a flash message and
zero source calls. -/
theorem c8_validation_short_circuit (env : HandlerEnv) (form : Form)
    (h : pyStrip form.name = "" ∨
      (form.mode = "season" ∧ pyIsDigit (pyStrip form.year) = false)) :
    ∃ msg, player_lookup env form = .ok (.flashRedirect msg, []) := by
  simp only [player_lookup]
  rcases h with h | ⟨hm, hy⟩
  · rw [if_pos h]
    exact ⟨_, rfl⟩
  · by_cases hn : pyStrip form.name = ""
    · rw [if_pos hn]
      exact ⟨_, rfl⟩
    · rw [if_neg hn, hm, hy]
      exact ⟨_, rfl⟩

/-- Witness for C8: an all-whitespace name. -/
theorem c8_validation_short_circuit_witness :
    pyStrip ("  ") = "" ∧
    (∃ msg, player_lookup
      ⟨⟨true, true, .ok [1], .ok []⟩, ⟨true, true, .ok ⟨[]⟩, .ok .otherShape⟩,
        ⟨true, true, .ok [], .ok []⟩⟩
      ⟨"  ", "career", ""⟩ = .ok (.flashRedirect msg, [])) :=
  ⟨rfl, c8_validation_short_circuit
    ⟨⟨true, true, .ok [1], .ok []⟩, ⟨true, true, .ok ⟨[]⟩, .ok .otherShape⟩,
      ⟨true, true, .ok [], .ok []⟩⟩
    ⟨"  ", "career", ""⟩ (Or.inl rfl)⟩

/-- C9: the three lookup helpers never assign the module globals, so
with the state passed explicitly a second call on the same state and
upstream data returns the same output, and the state is unchanged. -/
theorem c9_idempotent_lookups (st : ProgState) (upR : ResolveEnv) (upS : StatsEnv)
    (upD : DisplayEnv) (pid : Int) (season : Option Int) :
    (resolve_player_id_st st upR).2 = st ∧
    (resolve_player_id_st ((resolve_player_id_st st upR).2) upR).1 =
      (resolve_player_id_st st upR).1 ∧
    (get_hitting_stats_st st upS pid season).2 = st ∧
    (get_hitting_stats_st ((get_hitting_stats_st st upS pid season).2) upS pid season).1 =
      (get_hitting_stats_st st upS pid season).1 ∧
    (get_display_name_st st upD pid).2 = st ∧
    (get_display_name_st ((get_display_name_st st upD pid).2) upD pid).1 =
      (get_display_name_st st upD pid).1 :=
  ⟨rfl, rfl, rfl, rfl, rfl, rfl⟩

/-- C10: when validation passes and the resolver yields the id 0, the
handler's falsy check treats the player as not found: it flashes the
"No player found" message and never calls the stats or display-name
helpers. -/
theorem c10_zero_id_not_found (env : HandlerEnv) (form : Form)
    (hname : ¬(pyStrip form.name = ""))
    (hyear : form.mode = "season" → pyIsDigit (pyStrip form.year) = true)
    (hres : resolve_player_id env.resolveEnv = .ok (some 0)) :
    player_lookup env form =
      .ok (.flashRedirect ("No player found for '" ++ pyStrip form.name ++
          "'. Try a more specific name."), [.resolveCall]) := by
  simp only [player_lookup]
  rw [if_neg hname]
  have hcond : (form.mode = "season" && !pyIsDigit (pyStrip form.year)) = false := by
    by_cases hm : form.mode = "season"
    · rw [hm, hyear hm]
      rfl
    · simp [hm]
  rw [hcond]
  show (match resolve_player_id env.resolveEnv with
      | Except.error e => (Except.error e : Except String (HandlerResult × List SourceCall))
      | Except.ok pid =>
          if pid = none || pid = some 0 then
            .ok (.flashRedirect ("No player found for '" ++ pyStrip form.name ++
              "'. Try a more specific name."), [.resolveCall])
          else
            match pid with
            | none =>
                .ok (.flashRedirect ("No player found for '" ++ pyStrip form.name ++
                  "'. Try a more specific name."), [.resolveCall])
            | some p =>
                match get_hitting_stats env.statsEnv p
                    (if form.mode = "season" then some (intOfDigits (pyStrip form.year))
                     else none) with
                | .error e =>
                    .ok (.flashRedirect ("Could not fetch stats: " ++ e),
                      [.resolveCall, .statsCall])
                | .ok rows =>
                    if rows = [] then
                      .ok (.flashRedirect ("No stats found for that selection."),
                        [.resolveCall, .statsCall])
                    else
                      match get_display_name env.displayEnv p with
                      | .error e => .error e
                      | .ok display_name =>
                          .ok (.page display_name p form.mode
                            (if form.mode = "season" then
                              some (intOfDigits (pyStrip form.year)) else none) rows,
                            [.resolveCall, .statsCall, .displayCall])) =
    .ok (.flashRedirect ("No player found for '" ++ pyStrip form.name ++
      "'. Try a more specific name."), [.resolveCall])
  rw [hres]
  rfl

/-- Witness for C10: the resolver's primary source returns id 0. -/
theorem c10_zero_id_not_found_witness :
    player_lookup
      ⟨⟨true, false, .ok [0], .error ("x")⟩, ⟨true, true, .ok ⟨[]⟩, .ok .otherShape⟩,
        ⟨true, true, .ok [], .ok []⟩⟩
      ⟨"Cal Raleigh", "career", ""⟩ =
      .ok (.flashRedirect ("No player found for 'Cal Raleigh'. Try a more specific name."),
        [.resolveCall]) := by
  have h := c10_zero_id_not_found
    ⟨⟨true, false, .ok [0], .error ("x")⟩, ⟨true, true, .ok ⟨[]⟩, .ok .otherShape⟩,
      ⟨true, true, .ok [], .ok []⟩⟩
    ⟨"Cal Raleigh", "career", ""⟩
    (by decide) (fun hm => absurd hm (by decide)) rfl
  exact h
